import Mathlib

/-!
Verification of the threaded-discussion engine of the PG-chat-bot repository
(src/bot.py).  The source file concatenates two near-identical bot variants:

* an SQL-table variant (lines 1-1184): users / posts / comments / reactions /
  followers live in flat SQLite tables; comments form a parent-pointer tree
  (`parent_comment_id`, 0 = top-level); reactions are rows with a
  UNIQUE(comment_id, user_id) constraint.  Modelled in namespace `SqlBot`.

* a JSON nested-dict variant (lines 1186-2726): each post row carries a JSON
  `comments` column, a list of comment dicts each holding `likes`/`dislikes`
  (lists of user ids) and a nested `replies` list.  Modelled in namespace
  `JsonBot`.

Both variants are embedded as pure state-transition functions: SQL
UPDATE/INSERT/DELETE become list surgery on an explicit database value, and
the Telegram handlers (`button_handler` branches, `handle_message`) become
functions from the database/user state and the incoming message to the new
state plus the list of messages the bot would send.  External effects that can
fail (posting to the channel, editing the channel message's comment-count
button) are modelled by boolean success parameters (`sendOk`, `mirrorOk`)
which, exactly as in the source's try/except blocks, may only influence the
log, never abort the state transition after the point where the source
catches the exception.  Timestamp columns are not modelled (no modelled code
path reads them).
-/

/-- Python's `str.strip()`: remove leading and trailing whitespace.  Defined
on the character list so that it evaluates inside the kernel. -/
def strip (s : String) : String :=
  String.mk
    (((s.data.dropWhile Char.isWhitespace).reverse.dropWhile Char.isWhitespace).reverse)

namespace SqlBot

/-- A message arriving at `handle_message`: Telegram text, photo (file id +
caption), voice (file id + caption), or any other unsupported kind. -/
inductive MsgContent where
  | text (s : String)
  | photo (fileId : String) (caption : String)
  | voice (fileId : String) (caption : String)
  | other
deriving Repr, DecidableEq

/-- Python: `text = update.message.text or update.message.caption or ""`
(src/bot.py:954). -/
def textOf : MsgContent → String
  | .text s => s
  | .photo _ cap => cap
  | .voice _ cap => cap
  | .other => ""

/-- A row of the `users` table (src/bot.py:30-43).  NULL columns are `none`. -/
structure UserRow where
  user_id : String
  anonymous_name : String
  sex : String
  awaiting_name : Bool
  waiting_for_post : Bool
  waiting_for_comment : Bool
  selected_category : Option String
  comment_post_id : Option Nat
  comment_idx : Option Nat
  reply_idx : Option Nat
  nested_idx : Option Nat
deriving Repr, DecidableEq

/-- A row of the `posts` table (src/bot.py:52-60). -/
structure PostRow where
  post_id : Nat
  content : String
  author_id : String
  category : Option String
  channel_message_id : Option Nat
deriving Repr, DecidableEq

/-- A row of the `comments` table (src/bot.py:62-73).  `parent_comment_id = 0`
means top-level; `ctype` is the `type` column ('text' / 'photo' / 'voice'). -/
structure CommentRow where
  comment_id : Nat
  post_id : Option Nat
  parent_comment_id : Nat
  author_id : String
  content : String
  ctype : String
  file_id : Option String
deriving Repr, DecidableEq

/-- A row of the `reactions` table (src/bot.py:75-83); `rtype` is 'like' or
'dislike'. -/
structure ReactionRow where
  comment_id : Nat
  user_id : String
  rtype : String
deriving Repr, DecidableEq

/-- The whole SQLite database of the SQL variant, plus the AUTOINCREMENT
counters for posts and comments. -/
structure SqlDB where
  users : List UserRow
  posts : List PostRow
  comments : List CommentRow
  reactions : List ReactionRow
  followers : List (String × String)
  next_post_id : Nat
  next_comment_id : Nat
deriving Repr, DecidableEq

/-- Query `db_fetch_one("SELECT * FROM users WHERE user_id = ?")`: — first matching
row (src/bot.py:101-106). -/
def find_user (db : SqlDB) (uid : String) : Option UserRow :=
  db.users.find? (fun v => v.user_id = uid)

/-- Statement `UPDATE users SET ... WHERE user_id = ?` — rewrites every row whose
`user_id` matches. -/
def update_user (db : SqlDB) (uid : String) (f : UserRow → UserRow) : SqlDB :=
  { db with users := db.users.map (fun v => if v.user_id = uid then f v else v) }

/-- SQL equality on possibly-NULL columns: `NULL = x` is never true. -/
def sqlEq : Option Nat → Option Nat → Bool
  | some a, some b => a == b
  | _, _ => false

/-- Function `count_all_comments(post_id)` (src/bot.py:210-218):
`SELECT COUNT(*) FROM comments WHERE post_id = ?`, recomputed from the
current table on every call. -/
def count_all_comments (db : SqlDB) (post_id : Option Nat) : Nat :=
  (db.comments.filter (fun c => sqlEq c.post_id post_id)).length

/-- Function `calculate_user_rating(user_id)` (src/bot.py:183-202): number of posts
authored plus number of comment rows authored (the flat table holds replies
of every depth). -/
def calculate_user_rating (db : SqlDB) (user_id : String) : Nat :=
  (db.posts.filter (fun p => p.author_id == user_id)).length
  + (db.comments.filter (fun c => c.author_id == user_id)).length

/-- The `button_handler` branch for `likecomment_` / `dislikecomment_`
(src/bot.py:808-822): DELETE any reaction row of this user on this comment,
then unconditionally INSERT the new one (`reaction_type` is 'like' or
'dislike').  There is no existence check on the comment. -/
def toggle_reaction (db : SqlDB) (comment_id : Nat) (user_id : String)
    (reaction_type : String) : SqlDB :=
  let cleared := db.reactions.filter
    (fun r => !(r.comment_id == comment_id && r.user_id == user_id))
  { db with reactions := cleared ++ [⟨comment_id, user_id, reaction_type⟩] }

/-- The `button_handler` branch for `category_` (src/bot.py:552-557):
`UPDATE users SET waiting_for_post = 1, selected_category = ?`. -/
def category_button (db : SqlDB) (uid : String) (category : String) : SqlDB :=
  update_user db uid (fun v =>
    { v with waiting_for_post := true, selected_category := some category })

/-- The `button_handler` branch for `edit_name` (src/bot.py:605-610):
`UPDATE users SET awaiting_name = 1`. -/
def edit_name_button (db : SqlDB) (uid : String) : SqlDB :=
  update_user db uid (fun v => { v with awaiting_name := true })

/-- The `button_handler` branch for `writecomment_` (src/bot.py:786-793):
`UPDATE users SET waiting_for_comment = 1, comment_post_id = ?`
(the older `comment_idx` / `reply_idx` columns are left untouched). -/
def writecomment_button (db : SqlDB) (uid : String) (post_id : Nat) : SqlDB :=
  update_user db uid (fun v =>
    { v with waiting_for_comment := true, comment_post_id := some post_id })

/-- The `button_handler` branch for `reply_` (src/bot.py:904-912):
`UPDATE users SET waiting_for_comment = 1, comment_post_id = ?, comment_idx = ?`. -/
def reply_button (db : SqlDB) (uid : String) (post_id comment_id : Nat) : SqlDB :=
  update_user db uid (fun v =>
    { v with waiting_for_comment := true, comment_post_id := some post_id,
             comment_idx := some comment_id })

/-- The `button_handler` branch for `replytoreply_` (src/bot.py:928-937):
stores the parent top-level comment in `comment_idx` and the reply being
replied to in `reply_idx`. -/
def replytoreply_button (db : SqlDB) (uid : String)
    (post_id parent_comment_id comment_id : Nat) : SqlDB :=
  update_user db uid (fun v =>
    { v with waiting_for_comment := true, comment_post_id := some post_id,
             comment_idx := some parent_comment_id, reply_idx := some comment_id })

/-- The `button_handler` branch for `follow_` (src/bot.py:628-637): INSERT of the
(follower, followed) pair; the PRIMARY KEY (follower_id, followed_id) makes a
duplicate insert raise IntegrityError, which is caught and ignored. -/
def follow_button (db : SqlDB) (uid target : String) : SqlDB :=
  if db.followers.any (fun p => p.1 == uid && p.2 == target) then db
  else { db with followers := db.followers ++ [(uid, target)] }

/-- The `button_handler` branch for `unfollow_` (src/bot.py:638-642):
`DELETE FROM followers WHERE follower_id = ? AND followed_id = ?`. -/
def unfollow_button (db : SqlDB) (uid target : String) : SqlDB :=
  { db with followers :=
      db.followers.filter (fun p => !(p.1 == uid && p.2 == target)) }

/-- The `handle_message` branch for `user['waiting_for_post']`
(src/bot.py:959-1040): clear the flag and category, resolve the content,
INSERT the post row, then try to send it to the channel; on success the
channel message id (`cmid`) is stored on the row, on failure the row keeps a
NULL channel id and an error is reported. -/
def post_branch (db : SqlDB) (uid : String) (u : UserRow) (msg : MsgContent)
    (sendOk : Bool) (cmid : Nat) : SqlDB × List String :=
  let db1 := update_user db uid (fun v =>
    { v with waiting_for_post := false, selected_category := none })
  let post_content :=
    match msg with
    | .text s => s
    | .photo _ cap => cap
    | .voice _ cap => cap
    | .other => "(Unsupported content type)"
  let pid := db1.next_post_id
  let db2 := { db1 with
    posts := db1.posts ++ [⟨pid, post_content, uid, u.selected_category, none⟩],
    next_post_id := pid + 1 }
  if sendOk then
    ({ db2 with posts := db2.posts.map (fun p =>
        if p.post_id = pid then { p with channel_message_id := some cmid } else p) },
     ["✅ Your question has been posted!"])
  else
    (db2, ["❌ Failed to post your question. Please try again later."])

/-- The `handle_message` branch for `user['waiting_for_comment']`
(src/bot.py:1043-1098): the parent is `comment_idx` when that column is
truthy and 0 (top-level) otherwise — `reply_idx` is never consulted; the
comment row is inserted with no validation of the parent, the channel
comment-count button update is attempted inside try/except (`mirrorOk`), and
only then is the comment state cleared. -/
def comment_branch (db : SqlDB) (uid : String) (u : UserRow) (msg : MsgContent)
    (mirrorOk : Bool) : SqlDB × List String :=
  let post_id := u.comment_post_id
  let parent_comment_id :=
    match u.comment_idx with
    | some n => if n = 0 then 0 else n
    | none => 0
  let resolved :=
    match msg with
    | .text s => some (s, "text", (none : Option String))
    | .photo fid cap => some (cap, "photo", some fid)
    | .voice fid cap => some (cap, "voice", some fid)
    | .other => none
  match resolved with
  | none =>
    (db, ["❌ Unsupported comment type. Please send text, photo, or voice message."])
  | some (content, ctype, file_id) =>
    let cid := db.next_comment_id
    let db1 := { db with
      comments := db.comments ++
        [⟨cid, post_id, parent_comment_id, uid, content, ctype, file_id⟩],
      next_comment_id := cid + 1 }
    let log := if mirrorOk then [] else ["Failed to update comment count"]
    let db2 := update_user db1 uid (fun v =>
      { v with waiting_for_comment := false, comment_post_id := none,
               comment_idx := none, reply_idx := none, nested_idx := none })
    (db2, log ++ ["✅ Your comment has been added!"])

/-- The `handle_message` branch for `user['awaiting_name']` (src/bot.py:1101-1112):
accept the stripped text as the new anonymous name iff it is non-empty and at
most 30 characters; on rejection nothing changes and the user stays in the
awaiting-name state. -/
def name_branch (db : SqlDB) (uid : String) (text : String) : SqlDB × List String :=
  let new_name := strip text
  if new_name ≠ "" ∧ new_name.length ≤ 30 then
    (update_user db uid (fun v =>
      { v with anonymous_name := new_name, awaiting_name := false }),
     ["✅ Name updated!"])
  else
    (db, ["❌ Name cannot be empty or longer than 30 characters. Please try again."])

/-- The reply-keyboard fallthrough of `handle_message` (src/bot.py:1115-1147):
menu texts produce a reply and no state change. -/
def keyboard_reply (text : String) : List String :=
  if text = "🙏 Ask Question" then ["📚 Choose a category:"]
  else if text = "👤 View Profile" then ["profile"]
  else if text = "❓ Help" then ["help"]
  else if text = "ℹ️ About Us" then ["about"]
  else []

/-- The `handle_message` of the SQL variant (src/bot.py:953-1147).  Branch order
as in the source: waiting_for_post, then waiting_for_comment, then
awaiting_name, then the reply-keyboard texts.  A missing user falls through
to the keyboard texts. -/
def handle_message (db : SqlDB) (uid : String) (msg : MsgContent)
    (sendOk mirrorOk : Bool) (cmid : Nat) : SqlDB × List String :=
  match find_user db uid with
  | some u =>
    if u.waiting_for_post then post_branch db uid u msg sendOk cmid
    else if u.waiting_for_comment then comment_branch db uid u msg mirrorOk
    else if u.awaiting_name then name_branch db uid (textOf msg)
    else (db, keyboard_reply (textOf msg))
  | none => (db, keyboard_reply (textOf msg))

end SqlBot

namespace JsonBot

/-- Which reaction button was pressed: the `like.../dislike...` callback
prefixes of the JSON variant. -/
inductive RType where
  | like
  | dislike
deriving Repr, DecidableEq

mutual
/-- A comment / reply / nested-reply dict of the JSON variant.  `author` is
the stored author id (the `author_id` key of top-level comment dicts,
src/bot.py:2489-2491, and the `user_id` key of reply dicts,
src/bot.py:2379-2385 — the code reads back exactly the key it wrote);
`content` is the `content` key of top-level comments resp. the `text` /
`caption` key of replies and media comments; `likes` / `dislikes` are lists
of user ids; `replies` is the nested list (a dict without a `replies` key is
modelled by `.nil`, matching the `.get('replies', [])` / `setdefault` reads).
Timestamps are not modelled. -/
inductive CNode where
  | mk (author : String) (content : String)
       (likes : List String) (dislikes : List String)
       (replies : CList)
/-- A JSON list of comment dicts (the `comments` column and every `replies`
value); a bespoke list type mutual with `CNode` so that all recursion over
the thread is structural. -/
inductive CList where
  | nil
  | cons (head : CNode) (tail : CList)
end

def CNode.author (c : CNode) : String :=
  CNode.casesOn c fun a _ _ _ _ => a

def CNode.content (c : CNode) : String :=
  CNode.casesOn c fun _ s _ _ _ => s

def CNode.likes (c : CNode) : List String :=
  CNode.casesOn c fun _ _ l _ _ => l

def CNode.dislikes (c : CNode) : List String :=
  CNode.casesOn c fun _ _ _ d _ => d

def CNode.replies (c : CNode) : CList :=
  CNode.casesOn c fun _ _ _ _ r => r

/-- Python's `len` on a comment list. -/
def CList.length : CList → Nat
  | .nil => 0
  | .cons _ t => 1 + t.length

/-- Python's `comments[i]` (guarded by an `i >= len(comments)` check in the
handlers, so the out-of-range case is `none`). -/
def CList.get? : CList → Nat → Option CNode
  | .nil, _ => none
  | .cons h _, 0 => some h
  | .cons _ t, Nat.succ n => t.get? n

/-- Python's `comments[i] = node` (in-range in the handlers; out of range it
changes nothing). -/
def CList.set : CList → Nat → CNode → CList
  | .nil, _, _ => .nil
  | .cons _ t, 0, c => .cons c t
  | .cons h t, Nat.succ n, c => .cons h (t.set n c)

/-- Python's `comments.append(node)`. -/
def CList.push : CList → CNode → CList
  | .nil, c => .cons c .nil
  | .cons h t, c => .cons h (t.push c)

/-- Python's `for comment in comments:` accumulation loop with a numeric
accumulator (the shape used by `calculate_user_rating`). -/
def CList.foldl (f : Nat → CNode → Nat) : Nat → CList → Nat
  | a, .nil => a
  | a, .cons h t => CList.foldl f (f a h) t

/-- View a comment list as a plain Lean list of its top-level nodes. -/
def CList.toList : CList → List CNode
  | .nil => []
  | .cons h t => h :: t.toList

/-- Replace a node's `likes` and `dislikes` in place (the reaction handlers
mutate exactly those two keys). -/
def set_reactions (c : CNode) (l d : List String) : CNode :=
  CNode.casesOn c fun a s _ _ rs => CNode.mk a s l d rs

/-- Python: `node.setdefault("replies", []).append(child)`. -/
def add_child (c child : CNode) : CNode :=
  CNode.casesOn c fun a s l d rs => CNode.mk a s l d (rs.push child)

mutual
/-- The body of the `count_all_comments` loop for one comment dict: 1 for the
comment itself plus the recursive count of its `replies`. -/
def count_one_comment : CNode → Nat
  | .mk _ _ _ _ rs => 1 + count_all_comments rs
/-- Function `count_all_comments(comments)` of the JSON variant
(src/bot.py:1446-1452): one per comment plus the recursive count of its
`replies`, at every depth. -/
def count_all_comments : CList → Nat
  | .nil => 0
  | .cons c rest => count_one_comment c + count_all_comments rest
end

mutual
/-- One comment record together with all records below it, flattened. -/
def flatten_node : CNode → List CNode
  | .mk a c l d rs => .mk a c l d rs :: flatten_comments rs
/-- Every comment record of a thread, at every nesting depth, as a flat list
(the "comment rows attached to the post" of the specification). -/
def flatten_comments : CList → List CNode
  | .nil => []
  | .cons c rest => flatten_node c ++ flatten_comments rest
end

/-- A row of the JSON variant's `posts` table (src/bot.py:1250-1301), with the
`comments` JSON column decoded. -/
structure JPost where
  post_id : Nat
  content : String
  author_id : String
  author_name : String
  category : String
  channel_message_id : Option Nat
  comments : CList

/-- The user dict of the JSON variant (src/bot.py:1186-1212). -/
structure JUser where
  anonymous_name : String
  sex : String
  followers : List String
  waiting_for_post : Bool
  selected_category : Option String
  waiting_for_comment : Bool
  comment_post_id : Option Nat
  comment_idx : Option Nat
  reply_idx : Option Nat
  nested_idx : Option Nat
  awaiting_name : Bool
deriving Repr, DecidableEq

/-- The `or {}` fallback dict: every flag falsy, every index missing
(src/bot.py:1788, 2345). -/
def emptyJUser : JUser :=
  ⟨"", "❓", [], false, none, false, none, none, none, none, false⟩

/-- Function `get_post(post_id)` (src/bot.py:1279-1301); `none` post id models
`get_post(None)`, which matches no row. -/
def get_post (posts : List JPost) : Option Nat → Option JPost
  | some pid => posts.find? (fun p => p.post_id = pid)
  | none => none

/-- Function `update_post(post_id, post_data)` (src/bot.py:1303-1321): rewrites the
`comments` column of every row whose id matches. -/
def update_post (posts : List JPost) (pid : Nat) (p2 : JPost) : List JPost :=
  posts.map (fun p => if p.post_id = pid then { p with comments := p2.comments } else p)

/-- Function `calculate_user_rating(user_id)` of the JSON variant
(src/bot.py:1418-1438): posts authored, plus comments / replies / nested
replies authored — the loops stop at nesting depth 3. -/
def calculate_user_rating (posts : List JPost) (user_id : String) : Nat :=
  let count := posts.foldl
    (fun acc p => if p.author_id = user_id then acc + 1 else acc) 0
  posts.foldl (fun acc p =>
    CList.foldl (fun acc c =>
      let acc := if c.author = user_id then acc + 1 else acc
      CList.foldl (fun acc r =>
        let acc := if r.author = user_id then acc + 1 else acc
        CList.foldl (fun acc nr =>
          if nr.author = user_id then acc + 1 else acc) acc r.replies) acc c.replies)
      acc p.comments) count

/-- The like branch of the JSON reaction handlers (src/bot.py:2068-2077):
remove the user from `dislikes` if present, then toggle membership in
`likes` (`list.remove` drops the first occurrence, `append` adds at the
end). -/
def toggle_like (user_id : String) (likes dislikes : List String) :
    List String × List String :=
  let dislikes := if user_id ∈ dislikes then dislikes.erase user_id else dislikes
  let likes := if user_id ∈ likes then likes.erase user_id else likes ++ [user_id]
  (likes, dislikes)

/-- The dislike branch (src/bot.py:2079-2088), symmetric to `toggle_like`. -/
def toggle_dislike (user_id : String) (likes dislikes : List String) :
    List String × List String :=
  let likes := if user_id ∈ likes then likes.erase user_id else likes
  let dislikes :=
    if user_id ∈ dislikes then dislikes.erase user_id else dislikes ++ [user_id]
  (likes, dislikes)

/-- One press of a reaction button on a node's (`likes`, `dislikes`) pair. -/
def apply_reaction (user_id : String) (t : RType) (s : List String × List String) :
    List String × List String :=
  match t with
  | .like => toggle_like user_id s.1 s.2
  | .dislike => toggle_dislike user_id s.1 s.2

/-- A whole sequence of reaction presses ((user, button) pairs) on one node. -/
def apply_sequence (ops : List (String × RType)) (s : List String × List String) :
    List String × List String :=
  ops.foldl (fun s op => apply_reaction op.1 op.2 s) s

/-- Outcome of a `likecomment_` / `dislikecomment_` press. -/
inductive ToggleOutcome where
  | post_missing
  | comment_missing
  | updated
deriving Repr, DecidableEq

/-- The `button_handler` branch for `likecomment_` / `dislikecomment_` of the
JSON variant (src/bot.py:2050-2106): look the post up, bounds-check the
comment index (answering "Comment not found" with no write when it is out of
range), toggle the addressed comment's `likes`/`dislikes` and store the post
back. -/
def likecomment_button (posts : List JPost) (pid comment_idx : Nat)
    (user_id : String) (t : RType) : List JPost × ToggleOutcome :=
  match get_post posts (some pid) with
  | none => (posts, .post_missing)
  | some post =>
    match post.comments.get? comment_idx with
    | none => (posts, .comment_missing)
    | some comment =>
      let (likes, dislikes) := apply_reaction user_id t (comment.likes, comment.dislikes)
      let comment2 := set_reactions comment likes dislikes
      (update_post posts pid { post with comments := post.comments.set comment_idx comment2 },
       .updated)

/-- The `button_handler` branch for `category_` (src/bot.py:1797-1801). -/
def category_button (category : String) (u : JUser) : JUser :=
  { u with waiting_for_post := true, selected_category := some category }

/-- The `button_handler` branch for `edit_name` (src/bot.py:1849-1852). -/
def edit_name_button (u : JUser) : JUser :=
  { u with awaiting_name := true }

/-- The `button_handler` branch for `writecomment_` (src/bot.py:2029-2035): sets
only `waiting_for_comment` and `comment_post_id`; any `comment_idx` /
`reply_idx` / `nested_idx` left over from an earlier reply action stays. -/
def writecomment_button (pid : Nat) (u : JUser) : JUser :=
  { u with waiting_for_comment := true, comment_post_id := some pid }

/-- The `button_handler` branch for `reply_` (src/bot.py:2248-2256): sets
`waiting_for_comment`, `comment_post_id` and `comment_idx`, leaving
`reply_idx` / `nested_idx` untouched. -/
def reply_button (pid comment_idx : Nat) (u : JUser) : JUser :=
  { u with waiting_for_comment := true, comment_post_id := some pid,
           comment_idx := some comment_idx }

/-- The `button_handler` branch for `replytoreply_` (src/bot.py:2273-2283). -/
def replytoreply_button (pid comment_idx reply_idx : Nat) (u : JUser) : JUser :=
  { u with waiting_for_comment := true, comment_post_id := some pid,
           comment_idx := some comment_idx, reply_idx := some reply_idx }

/-- The `button_handler` branch for `replytonested_` (src/bot.py:2303-2315). -/
def replytonested_button (pid comment_idx reply_idx nested_idx : Nat) (u : JUser) : JUser :=
  { u with waiting_for_comment := true, comment_post_id := some pid,
           comment_idx := some comment_idx, reply_idx := some reply_idx,
           nested_idx := some nested_idx }

/-- Replace a node's `replies` list (the handler rebuilds the nested path by
reassigning the `replies` keys, src/bot.py:2388-2392). -/
def set_replies (c : CNode) (rs : CList) : CNode :=
  CNode.casesOn c fun a s l d _ => CNode.mk a s l d rs

/-- The `waiting_for_comment` section of the JSON variant's `handle_message`
(src/bot.py:2348-2542).  Branch precedence as in the source: `nested_idx`
first, then `reply_idx`, then `comment_idx`, else a top-level comment.  Every
"not found" path returns early, leaving the pending state uncleared; a
missing `comment_idx`/`reply_idx` under a deeper index raises a TypeError in
the source (`None >= int`), which aborts the handler before any write.  On
success the post is stored, the channel button update is attempted inside
try/except (`mirrorOk` — failure only logs), and the pending state is
cleared. -/
def comment_flow (posts : List JPost) (u : JUser) (user_id : String)
    (msg : SqlBot.MsgContent) (mirrorOk : Bool) :
    List JPost × JUser × List String :=
  let text := SqlBot.textOf msg
  let mlog := if mirrorOk then [] else ["Failed to update comment count"]
  let cleared : JUser :=
    { u with waiting_for_comment := false, comment_post_id := none,
             comment_idx := none, reply_idx := none, nested_idx := none }
  match u.comment_post_id with
  | none => (posts, u, ["❌ Post not found."])
  | some pid =>
    match get_post posts (some pid) with
    | none => (posts, u, ["❌ Post not found."])
    | some post =>
      match u.nested_idx with
      | some nested_idx =>
        match u.comment_idx, u.reply_idx with
        | some comment_idx, some reply_idx =>
          match post.comments.get? comment_idx with
          | none => (posts, u, ["❌ Comment not found."])
          | some comment =>
            match comment.replies.get? reply_idx with
            | none => (posts, u, ["❌ Reply not found."])
            | some reply =>
              match reply.replies.get? nested_idx with
              | none => (posts, u, ["❌ Nested reply not found."])
              | some nested =>
                let new_nested_reply := CNode.mk user_id text [] [] .nil
                let nested2 := add_child nested new_nested_reply
                let reply2 := set_replies reply (reply.replies.set nested_idx nested2)
                let comment2 := set_replies comment (comment.replies.set reply_idx reply2)
                let posts2 := update_post posts pid
                  { post with comments := post.comments.set comment_idx comment2 }
                (posts2, cleared, ["✅ Your reply has been added!"] ++ mlog)
        | _, _ => (posts, u, ["TypeError"])
      | none =>
        match u.reply_idx with
        | some reply_idx =>
          match u.comment_idx with
          | some comment_idx =>
            match post.comments.get? comment_idx with
            | none => (posts, u, ["❌ Comment not found."])
            | some comment =>
              match comment.replies.get? reply_idx with
              | none => (posts, u, ["❌ Reply not found."])
              | some reply =>
                let new_reply := CNode.mk user_id text [] [] .nil
                let reply2 := add_child reply new_reply
                let comment2 := set_replies comment (comment.replies.set reply_idx reply2)
                let posts2 := update_post posts pid
                  { post with comments := post.comments.set comment_idx comment2 }
                (posts2, cleared, ["✅ Your reply has been added!"] ++ mlog)
          | none => (posts, u, ["TypeError"])
        | none =>
          match u.comment_idx with
          | some comment_idx =>
            match post.comments.get? comment_idx with
            | none => (posts, u, ["❌ Comment not found."])
            | some comment =>
              let new_reply := CNode.mk user_id text [] [] .nil
              let comment2 := add_child comment new_reply
              let posts2 := update_post posts pid
                { post with comments := post.comments.set comment_idx comment2 }
              (posts2, cleared, ["✅ Your reply has been added!"] ++ mlog)
          | none =>
            match msg with
            | .other =>
              (posts, u,
               ["❌ Unsupported comment type. Please send text, photo, or voice message."])
            | _ =>
              let new_comment := CNode.mk user_id text [] [] .nil
              let posts2 := update_post posts pid
                { post with comments := post.comments.push new_comment }
              (posts2, cleared, mlog ++ ["✅ Your comment has been added!"])

/-- The `waiting_for_post` section of the JSON variant's `handle_message`
(src/bot.py:2596-2686): pop the category (default 'Other'), clear the flag,
send to the channel; only on a successful send is the post row created (id =
AUTOINCREMENT, channel message id `cmid`, empty comments). -/
def post_flow (posts : List JPost) (u : JUser) (user_id : String)
    (msg : SqlBot.MsgContent) (sendOk : Bool) (cmid : Nat) :
    List JPost × JUser × List String :=
  let category := u.selected_category.getD "Other"
  let u2 := { u with waiting_for_post := false, selected_category := none }
  let post_content :=
    match msg with
    | .text s => s
    | .photo _ cap => cap
    | .voice _ cap => cap
    | .other => "(Unsupported content type)"
  if sendOk then
    let pid := 1 + posts.foldl (fun m p => max m p.post_id) 0
    (posts ++ [⟨pid, post_content, user_id, u2.anonymous_name, category, some cmid, .nil⟩],
     u2, ["✅ Your question has been posted!"])
  else
    (posts, u2, ["❌ Failed to post your question. Please try again later."])

/-- The `handle_message` of the JSON variant (src/bot.py:2341-2686).  Branch order
as in the source: the `waiting_for_comment` section first, then the four
reply-keyboard texts, then `awaiting_name`, then `waiting_for_post`. -/
def handle_message (posts : List JPost) (u : JUser) (user_id : String)
    (msg : SqlBot.MsgContent) (sendOk mirrorOk : Bool) (cmid : Nat) :
    List JPost × JUser × List String :=
  let text := SqlBot.textOf msg
  if u.waiting_for_comment then comment_flow posts u user_id msg mirrorOk
  else if text = "🙏 Ask Question" ∨ text = "👤 View Profile" ∨
          text = "❓ Help" ∨ text = "ℹ️ About Us" then
    (posts, u, [text])
  else if u.awaiting_name then
    let new_name := strip text
    if new_name ≠ "" ∧ new_name.length ≤ 30 then
      (posts, { u with anonymous_name := new_name, awaiting_name := false },
       ["✅ Name updated!"])
    else
      (posts, u,
       ["❌ Name cannot be empty or longer than 30 characters. Please try again."])
  else if u.waiting_for_post then post_flow posts u user_id msg sendOk cmid
  else (posts, u, [])

/-- Function `get_user(user_id)` over the JSON variant's user store
(src/bot.py:1186-1212): first row whose key matches. -/
def get_user (users : List (String × JUser)) (uid : String) : Option JUser :=
  (users.find? (fun p => p.1 = uid)).map (fun p => p.2)

/-- Function `save_user(user_id, user_data)` (src/bot.py:1214-1248):
`INSERT OR REPLACE` keyed by user id. -/
def save_user (users : List (String × JUser)) (uid : String) (u : JUser) :
    List (String × JUser) :=
  if users.any (fun p => p.1 = uid) then
    users.map (fun p => if p.1 = uid then (uid, u) else p)
  else users ++ [(uid, u)]

/-- The `button_handler` branch for `follow_` / `unfollow_` on the target user's
`followers` list (src/bot.py:1868-1879): follow appends only when absent,
unfollow removes only when present. -/
def follow_op (user_id : String) (isFollow : Bool) (followers : List String) :
    List String :=
  if isFollow then
    if user_id ∈ followers then followers else followers ++ [user_id]
  else
    if user_id ∈ followers then followers.erase user_id else followers

/-- The whole `follow_` / `unfollow_` branch (src/bot.py:1868-1879): fetch the
target user (`or {}`), rewrite its `followers` list, save it back.  Only the
target's record is touched. -/
def follow_button (users : List (String × JUser)) (uid target : String)
    (isFollow : Bool) : List (String × JUser) :=
  let target_user := (get_user users target).getD emptyJUser
  let followers := follow_op uid isFollow target_user.followers
  save_user users target { target_user with followers := followers }

/-- The follow relation of the JSON variant: A follows B iff A is in B's
`followers` list. -/
def follows (users : List (String × JUser)) (a b : String) : Prop :=
  a ∈ ((get_user users b).getD emptyJUser).followers

instance (users : List (String × JUser)) (a b : String) :
    Decidable (follows users a b) := by
  unfold follows
  infer_instance

/-- The reaction a user currently holds on a node, per its displayed lists. -/
def user_reaction (uid : String) (likes dislikes : List String) : Option RType :=
  if uid ∈ likes then some .like
  else if uid ∈ dislikes then some .dislike
  else none

/-- Modelled from the spec: the reaction left by a sequence of toggles —
each press by `uid` switches to the pressed type unless it repeats the
current one, which clears it; presses by other users are ignored.  `r` is
the reaction held before the sequence. -/
def toggle_spec_from (uid : String) (r : Option RType)
    (ops : List (String × RType)) : Option RType :=
  ops.foldl
    (fun r op =>
      if op.1 = uid then (if r = some op.2 then none else some op.2) else r) r

/-- Definition `toggle_spec_from` starting from no reaction. -/
def toggle_spec (uid : String) (ops : List (String × RType)) : Option RType :=
  toggle_spec_from uid none ops

/-- Spec-side count for C8: 1 if the node is authored by `uid`. -/
def count1 (uid : String) (c : CNode) : Nat :=
  if c.author = uid then 1 else 0

/-- Spec-side count for C8: posts authored by `uid`. -/
def authored_posts (posts : List JPost) (uid : String) : Nat :=
  (posts.filter (fun p => p.author_id = uid)).length

/-- Spec-side count for C8: nodes authored by `uid` at nesting depths 1-3 of
a comment forest. -/
def authored_upto_depth3 (uid : String) (cs : CList) : Nat :=
  (cs.toList.map (fun c =>
    count1 uid c +
    (c.replies.toList.map (fun r =>
      count1 uid r + (r.replies.toList.map (count1 uid)).sum)).sum)).sum

/-- Spec-side count for C8: posts authored plus comment records authored at
every nesting depth (the claim's reading of the rating). -/
def authored_any_depth (posts : List JPost) (uid : String) : Nat :=
  authored_posts posts uid +
  (posts.map (fun p =>
    ((flatten_comments p.comments).filter (fun c => c.author = uid)).length)).sum

/-- Spec-side count for C4: how many pending-action flags a user has set at
once (the claim asserts this is always at most 1). -/
def pending_flag_count (u : JUser) : Nat :=
  (if u.waiting_for_post then 1 else 0) +
  (if u.waiting_for_comment then 1 else 0) +
  (if u.awaiting_name then 1 else 0)

/-- The user record the JSON variant's `start` handler creates on first
contact (src/bot.py:1462-1468) as read back through `get_user`: name set,
empty followers, every flag cleared. -/
def freshJUser (anon : String) : JUser :=
  { emptyJUser with anonymous_name := anon }

end JsonBot

section Theorems

open SqlBot JsonBot

/-- Auxiliary: pointwise SQL equality against a non-NULL constant coincides
with propositional equality. -/
lemma sqlEq_some (x : Option Nat) (pid : Nat) :
    sqlEq x (some pid) = decide (x = some pid) := by
  cases x with
  | none => simp [sqlEq]
  | some a => by_cases h : a = pid <;> simp [sqlEq, h]

lemma clist_get?_eq_none : ∀ (cs : CList) (n : Nat), cs.length ≤ n → cs.get? n = none := by
  intro cs
  induction cs using CList.rec (motive_1 := fun _ => True) with
  | mk a s l d rs ih => exact True.intro
  | nil => intro n h; rfl
  | cons hd t ih1 ih2 =>
    intro n h
    cases n with
    | zero => simp [CList.length] at h
    | succ m =>
      simp [CList.length] at h
      exact ih2 m (by omega)

/-- C2: the JSON variant's `count_all_comments` equals the number of comment
records attached to the post at every nesting depth (the length of the
flattened forest), and the SQL variant's `count_all_comments` equals the
number of comment rows whose `post_id` matches; both are computed from the
current storage, independent of insertion order. -/
theorem C2_total_comment_count :
    (∀ cs : CList,
      JsonBot.count_all_comments cs = (JsonBot.flatten_comments cs).length)
    ∧ (∀ (db : SqlDB) (pid : Nat),
      SqlBot.count_all_comments db (some pid) =
        (db.comments.filter (fun c => c.post_id = some pid)).length) := by
  constructor
  · intro cs
    induction cs using CList.rec
        (motive_1 := fun c => count_one_comment c = (flatten_node c).length) with
    | mk a s l d rs ih =>
      simp [count_one_comment, flatten_node, ih]
      omega
    | nil => rfl
    | cons c rest ih1 ih2 =>
      simp [JsonBot.count_all_comments, flatten_comments, ih1, ih2]
  · intro db pid
    unfold SqlBot.count_all_comments
    congr 1
    apply List.filter_congr
    intro c _
    exact sqlEq_some c.post_id pid

/-- The concrete database used by several counterexamples: one post (id 1)
with one top-level comment (id 1) and one reply to it (id 2), one user "u"
with no pending action, and a second post (id 2) with no comments. -/
def ceDB : SqlDB :=
  { users := [⟨"u", "Hopeful1", "❓", false, false, false, none, none, none, none, none⟩],
    posts := [⟨1, "first post", "a", some "Other", some 11⟩,
              ⟨2, "second post", "b", some "Other", some 12⟩],
    comments := [⟨1, some 1, 0, "a", "top comment", "text", none⟩,
                 ⟨2, some 1, 1, "b", "a reply", "text", none⟩],
    reactions := [],
    followers := [],
    next_post_id := 3,
    next_comment_id := 3 }

/-- C1, counterexample: in the SQL variant pressing 👍 twice on comment 1
leaves a 'like' reaction row for ("u", comment 1) in place — the claim's
"pure toggle-off" ("none if the last action repeated the existing type")
predicts no reaction row after the repeat. -/
theorem C1_counterexample :
    (SqlBot.toggle_reaction (SqlBot.toggle_reaction ceDB 1 "u" "like") 1 "u" "like").reactions
      = [⟨1, "u", "like"⟩] := by
  decide

/-- Invariant carried by one comment's (`likes`, `dislikes`) lists through a
sequence of reaction presses, for a fixed observed user: the user occurs at
most once in each list, never in both, and the lists display reaction `r`. -/
def ReactionInv (uid : String) (likes dislikes : List String)
    (r : Option RType) : Prop :=
  likes.count uid ≤ 1 ∧ dislikes.count uid ≤ 1 ∧
  ¬(uid ∈ likes ∧ uid ∈ dislikes) ∧
  user_reaction uid likes dislikes = r

lemma count_le_one_mem_not_mem_erase {l : List String} {a : String}
    (h1 : l.count a ≤ 1) (h2 : a ∈ l) : a ∉ l.erase a := by
  intro hmem
  have hpos : 0 < (l.erase a).count a := List.count_pos_iff.mpr hmem
  have := List.count_erase_self a l
  have hp : 0 < l.count a := List.count_pos_iff.mpr h2
  omega

lemma reaction_inv_step (uid v : String) (t : RType)
    (l d : List String) (r : Option RType)
    (h : ReactionInv uid l d r) :
    ReactionInv uid (apply_reaction v t (l, d)).1 (apply_reaction v t (l, d)).2
      (if v = uid then (if r = some t then none else some t) else r) := by
  obtain ⟨hl, hd, hboth, hr⟩ := h
  by_cases hv : v = uid
  · subst hv
    cases t with
    | like =>
      simp only [apply_reaction, toggle_like, if_pos rfl]
      by_cases hml : v ∈ l
      · have hcl : l.count v = 1 := by
          have := List.count_pos_iff.mpr hml
          omega
        have hnd : v ∉ d := fun hmd => hboth ⟨hml, hmd⟩
        have hnel : v ∉ l.erase v := count_le_one_mem_not_mem_erase hl hml
        have hrl : r = some .like := by
          rw [← hr]; simp [user_reaction, hml]
        subst hrl
        refine ⟨?_, ?_, ?_, ?_⟩
        · simp [hml, List.count_erase_self]
          omega
        · simp [hnd, hml, hd]
        · simp [hml, hnel, hnd]
        · simp [hml, hnd, user_reaction, hnel]
      · have hcl : l.count v = 0 := List.count_eq_zero.mpr hml
        have hnd2 : v ∉ (if v ∈ d then d.erase v else d) := by
          by_cases hmd : v ∈ d
          · simp only [if_pos hmd]
            exact count_le_one_mem_not_mem_erase hd hmd
          · simp only [if_neg hmd]; exact hmd
        have hrne : r ≠ some .like := by
          rw [← hr]; by_cases hmd : v ∈ d <;> simp [user_reaction, hml, hmd]
        refine ⟨?_, ?_, ?_, ?_⟩
        · simp [hml, List.count_append, hcl]
        · by_cases hmd : v ∈ d
          · have := List.count_erase_self v d
            simp [hmd]
            omega
          · simp [hmd, hd]
        · intro hcontra
          exact hnd2 hcontra.2
        · simp [hml, user_reaction, hnd2, hrne]
    | dislike =>
      simp only [apply_reaction, toggle_dislike, if_pos rfl]
      by_cases hmd : v ∈ d
      · have hcd : d.count v = 1 := by
          have := List.count_pos_iff.mpr hmd
          omega
        have hnl : v ∉ l := fun hml => hboth ⟨hml, hmd⟩
        have hned : v ∉ d.erase v := count_le_one_mem_not_mem_erase hd hmd
        have hrl : r = some .dislike := by
          rw [← hr]; simp [user_reaction, hmd, hnl]
        subst hrl
        refine ⟨?_, ?_, ?_, ?_⟩
        · simp [hnl, hl]
        · simp [hmd, List.count_erase_self]
          omega
        · simp [hnl, hned, hmd]
        · simp [hmd, hnl, user_reaction, hned]
      · have hcd : d.count v = 0 := List.count_eq_zero.mpr hmd
        have hnl2 : v ∉ (if v ∈ l then l.erase v else l) := by
          by_cases hml : v ∈ l
          · simp only [if_pos hml]
            exact count_le_one_mem_not_mem_erase hl hml
          · simp only [if_neg hml]; exact hml
        have hrne : r ≠ some .dislike := by
          rw [← hr]; by_cases hml : v ∈ l <;> simp [user_reaction, hml, hmd]
        refine ⟨?_, ?_, ?_, ?_⟩
        · by_cases hml : v ∈ l
          · have := List.count_erase_self v l
            simp [hml]
            omega
          · simp [hml, hl]
        · simp [hmd, List.count_append, hcd]
        · intro hcontra
          exact hnl2 hcontra.1
        · simp [hmd, user_reaction, hnl2, hrne]
  · have hne : uid ≠ v := fun h => hv h.symm
    have memi : ∀ (xs : List String), uid ∈ xs.erase v ↔ uid ∈ xs :=
      fun xs => List.mem_erase_of_ne hne
    have cnti : ∀ (xs : List String), (xs.erase v).count uid = xs.count uid :=
      fun xs => List.count_erase_of_ne hne xs
    have capp : ∀ (xs : List String), (xs ++ [v]).count uid = xs.count uid := by
      intro xs
      rw [List.count_append]
      simp [List.count_singleton, hne]
    have mapp : ∀ (xs : List String), uid ∈ xs ++ [v] ↔ uid ∈ xs := by
      intro xs; simp [hne]
    cases t with
    | like =>
      simp only [apply_reaction, toggle_like, if_neg hv]
      constructor
      · by_cases hml : v ∈ l <;> simp [hml, cnti, capp, hl]
      constructor
      · by_cases hmd : v ∈ d <;> simp [hmd, cnti, hd]
      constructor
      · intro hcontra
        apply hboth
        by_cases hml : v ∈ l <;> by_cases hmd : v ∈ d <;>
          simp [hml, hmd, memi, mapp] at hcontra <;> exact hcontra
      · rw [← hr]
        by_cases hml : v ∈ l <;> by_cases hmd : v ∈ d <;>
          simp [hml, hmd, user_reaction, memi, mapp]
    | dislike =>
      simp only [apply_reaction, toggle_dislike, if_neg hv]
      constructor
      · by_cases hml : v ∈ l <;> simp [hml, cnti, hl]
      constructor
      · by_cases hmd : v ∈ d <;> simp [hmd, cnti, capp, hd]
      constructor
      · intro hcontra
        apply hboth
        by_cases hml : v ∈ l <;> by_cases hmd : v ∈ d <;>
          simp [hml, hmd, memi, mapp] at hcontra <;> exact hcontra
      · rw [← hr]
        by_cases hml : v ∈ l <;> by_cases hmd : v ∈ d <;>
          simp [hml, hmd, user_reaction, memi, mapp]

lemma reaction_inv_sequence (uid : String) :
    ∀ (ops : List (String × RType)) (l d : List String) (r : Option RType),
      ReactionInv uid l d r →
      ReactionInv uid (apply_sequence ops (l, d)).1 (apply_sequence ops (l, d)).2
        (toggle_spec_from uid r ops) := by
  intro ops
  induction ops with
  | nil => intro l d r h; exact h
  | cons op rest ih =>
    intro l d r h
    have step := reaction_inv_step uid op.1 op.2 l d r h
    have h1 : apply_sequence (op :: rest) (l, d)
        = apply_sequence rest (apply_reaction op.1 op.2 (l, d)) := rfl
    have h2 : toggle_spec_from uid r (op :: rest)
        = toggle_spec_from uid
            (if op.1 = uid then (if r = some op.2 then none else some op.2) else r)
            rest := rfl
    rw [h1, h2]
    exact ih (apply_reaction op.1 op.2 (l, d)).1 (apply_reaction op.1 op.2 (l, d)).2 _ step

/-- C1, amended: in the JSON variant, after any sequence of reaction presses
on a comment (starting from its creation with empty lists) a user appears at
most once across the `likes`/`dislikes` lists and the displayed reaction is
the last distinct type the user applied (none after a pure toggle-off).  In
the SQL variant the delete is followed by an unconditional insert, so after
any press the user's reaction rows on the comment are exactly one row of the
type just pressed — repeating a type re-inserts it instead of toggling it
off. -/
theorem C1_amended :
    (∀ (ops : List (String × RType)) (uid : String),
      (apply_sequence ops ([], [])).1.count uid
        + (apply_sequence ops ([], [])).2.count uid ≤ 1
      ∧ user_reaction uid (apply_sequence ops ([], [])).1
          (apply_sequence ops ([], [])).2 = toggle_spec uid ops)
    ∧ (∀ (db : SqlDB) (cid : Nat) (uid t : String),
      (SqlBot.toggle_reaction db cid uid t).reactions.filter
        (fun r => r.comment_id == cid && r.user_id == uid) = [⟨cid, uid, t⟩]) := by
  constructor
  · intro ops uid
    have base : ReactionInv uid [] [] none := by
      refine ⟨by simp, by simp, by simp, by simp [user_reaction]⟩
    have h := reaction_inv_sequence uid ops [] [] none base
    obtain ⟨hl, hd, hboth, hr⟩ := h
    constructor
    · by_cases hml : uid ∈ (apply_sequence ops ([], [])).1
      · have : (apply_sequence ops ([], [])).2.count uid = 0 :=
          List.count_eq_zero.mpr (fun hmd => hboth ⟨hml, hmd⟩)
        omega
      · have : (apply_sequence ops ([], [])).1.count uid = 0 :=
          List.count_eq_zero.mpr hml
        omega
    · exact hr
  · intro db cid uid t
    unfold SqlBot.toggle_reaction
    simp only [List.filter_append, List.filter_filter]
    have h1 : ∀ r : ReactionRow,
        ((r.comment_id == cid && r.user_id == uid) &&
          !(r.comment_id == cid && r.user_id == uid)) = false := by
      intro r
      cases r.comment_id == cid && r.user_id == uid <;> rfl
    rw [List.filter_congr (fun r _ => h1 r)]
    simp

lemma find?_map_update (l : List UserRow) (uid : String) (f : UserRow → UserRow)
    (hf : ∀ v, (f v).user_id = v.user_id) (u : UserRow)
    (h : l.find? (fun v => v.user_id = uid) = some u) :
    (l.map (fun v => if v.user_id = uid then f v else v)).find?
      (fun v => v.user_id = uid) = some (f u) := by
  induction l with
  | nil => simp at h
  | cons x t ih =>
    simp only [List.map_cons]
    by_cases hx : x.user_id = uid
    · have hfx : (f x).user_id = uid := by rw [hf x]; exact hx
      rw [if_pos hx, List.find?_cons_of_pos _ (by simp [hfx])]
      rw [List.find?_cons_of_pos _ (by simp [hx])] at h
      cases h
      rfl
    · rw [if_neg hx, List.find?_cons_of_neg _ (by simp [hx])]
      rw [List.find?_cons_of_neg _ (by simp [hx])] at h
      exact ih h

lemma find_user_update_user (db : SqlDB) (uid : String) (f : UserRow → UserRow)
    (hf : ∀ v, (f v).user_id = v.user_id) (u : UserRow)
    (h : find_user db uid = some u) :
    find_user (update_user db uid f) uid = some (f u) :=
  find?_map_update db.users uid f hf u h

/-- C3, counterexample: on the SQL variant, after the user presses "Reply" on
reply 2 (a child of top-level comment 1 under post 1), the stored reply
target is comment 2 (`reply_idx`), but processing the next message attaches
the new comment (id 3) to parent 1 — `handle_message` only ever reads
`comment_idx`, so the claim's "parent is exactly X" fails for X = an
existing reply. -/
theorem C3_counterexample :
    ((SqlBot.find_user (SqlBot.replytoreply_button ceDB "u" 1 1 2) "u").map
        (fun v => v.reply_idx) = some (some 2))
    ∧ (SqlBot.handle_message (SqlBot.replytoreply_button ceDB "u" 1 1 2) "u"
        (.text "hi") true true 0).1.comments.map
        (fun c => (c.comment_id, c.post_id, c.parent_comment_id))
      = [(1, some 1, 0), (2, some 1, 1), (3, some 1, 1)] := by
  decide

/-- C3, amended: on the SQL variant, processing a text message while
`waiting_for_comment` is set creates exactly one comment under the stored
post whose parent is the stored `comment_idx` (0 / top-level when that field
is unset or 0) — the stored `reply_idx` is ignored, so replying to a reply
attaches the comment to the reply's own parent top-level comment — and the
pending state is fully cleared. -/
theorem C3_amended (db : SqlDB) (uid : String) (u : UserRow) (s : String)
    (sendOk mirrorOk : Bool) (cmid : Nat)
    (hu : SqlBot.find_user db uid = some u)
    (hp : u.waiting_for_post = false)
    (hc : u.waiting_for_comment = true) :
    (SqlBot.handle_message db uid (.text s) sendOk mirrorOk cmid).1.comments
      = db.comments ++
        [⟨db.next_comment_id, u.comment_post_id,
          (match u.comment_idx with | some n => if n = 0 then 0 else n | none => 0),
          uid, s, "text", none⟩]
    ∧ SqlBot.find_user (SqlBot.handle_message db uid (.text s) sendOk mirrorOk cmid).1 uid
      = some { u with waiting_for_comment := false, comment_post_id := none,
                      comment_idx := none, reply_idx := none, nested_idx := none } := by
  have hmsg : SqlBot.handle_message db uid (.text s) sendOk mirrorOk cmid
      = SqlBot.comment_branch db uid u (.text s) mirrorOk := by
    unfold SqlBot.handle_message
    rw [hu]
    simp [hp, hc]
  rw [hmsg]
  unfold SqlBot.comment_branch
  simp only []
  constructor
  · rfl
  · apply find_user_update_user
    · intro v; rfl
    · exact hu

/-- Witness for C3_amended at a concrete input: the user presses "Write
Comment" on post 1 of `ceDB` and then sends "hello". -/
theorem C3_amended_witness :
    (SqlBot.handle_message (SqlBot.writecomment_button ceDB "u" 1) "u"
      (.text "hello") true true 0).1.comments
      = (SqlBot.writecomment_button ceDB "u" 1).comments ++
        [⟨3, some 1, 0, "u", "hello", "text", none⟩]
    ∧ SqlBot.find_user (SqlBot.handle_message (SqlBot.writecomment_button ceDB "u" 1) "u"
        (.text "hello") true true 0).1 "u"
      = some ⟨"u", "Hopeful1", "❓", false, false, false, none, none, none, none, none⟩ :=
  C3_amended (SqlBot.writecomment_button ceDB "u" 1) "u"
    ⟨"u", "Hopeful1", "❓", false, false, true, none, some 1, none, none, none⟩
    "hello" true true 0 (by decide) (by decide) (by decide)

/-- C4, counterexample: in the JSON variant, a fresh user who presses a
category button and then (without sending the post) presses "Write Comment"
ends up with both `waiting_for_post` and `waiting_for_comment` set — two
simultaneously active pending actions, contradicting "at most one active
pending action". -/
theorem C4_counterexample :
    JsonBot.pending_flag_count
      (JsonBot.writecomment_button 1
        (JsonBot.category_button "Bible" (JsonBot.freshJUser "Hopeful1"))) = 2 := by
  decide

/-- C4, amended: transitions into an `Awaiting*` state set only their own
fields and never clear the flags or target indices of other pending actions:
`writecomment_` keeps `waiting_for_post` and all reply indices, `reply_`
keeps `reply_idx`/`nested_idx`, `replytoreply_` keeps `nested_idx`, and
`category_`/`edit_name` keep the comment state — so several pending actions
can coexist and stale indices survive into the next message (conflicts are
resolved by the message handler's fixed branch order, not last-action-wins). -/
theorem C4_amended (u : JUser) (pid comment_idx reply_idx : Nat) (cat : String) :
    ((JsonBot.writecomment_button pid u).waiting_for_post = u.waiting_for_post
      ∧ (JsonBot.writecomment_button pid u).comment_idx = u.comment_idx
      ∧ (JsonBot.writecomment_button pid u).reply_idx = u.reply_idx
      ∧ (JsonBot.writecomment_button pid u).nested_idx = u.nested_idx)
    ∧ ((JsonBot.reply_button pid comment_idx u).reply_idx = u.reply_idx
      ∧ (JsonBot.reply_button pid comment_idx u).nested_idx = u.nested_idx
      ∧ (JsonBot.reply_button pid comment_idx u).waiting_for_post = u.waiting_for_post)
    ∧ (JsonBot.replytoreply_button pid comment_idx reply_idx u).nested_idx = u.nested_idx
    ∧ ((JsonBot.category_button cat u).waiting_for_comment = u.waiting_for_comment
      ∧ (JsonBot.category_button cat u).comment_idx = u.comment_idx
      ∧ (JsonBot.category_button cat u).awaiting_name = u.awaiting_name)
    ∧ ((JsonBot.edit_name_button u).waiting_for_post = u.waiting_for_post
      ∧ (JsonBot.edit_name_button u).waiting_for_comment = u.waiting_for_comment
      ∧ (JsonBot.edit_name_button u).comment_idx = u.comment_idx) :=
  ⟨⟨rfl, rfl, rfl, rfl⟩, ⟨rfl, rfl, rfl⟩, rfl, ⟨rfl, rfl, rfl⟩, ⟨rfl, rfl, rfl⟩⟩

/-- C5, counterexample: on the SQL variant a user presses "Reply" on comment
1 (which belongs to post 1), then presses "Write Comment" on post 2 — the
stale `comment_idx` survives — and sends a message: a comment (id 3) is
inserted under post 2 with parent comment 1, which belongs to a *different*
post; no `InvalidParent` error occurs and the write is performed, where the
claim demands failure with no write. -/
theorem C5_counterexample :
    (SqlBot.handle_message
        (SqlBot.writecomment_button (SqlBot.reply_button ceDB "u" 1 1) "u" 2) "u"
        (.text "stale") true true 0).1.comments.map
        (fun c => (c.comment_id, c.post_id, c.parent_comment_id))
      = [(1, some 1, 0), (2, some 1, 1), (3, some 2, 1)] := by
  decide

/-- C5, amended: the JSON variant bounds-checks the stored parent: when the
stored `comment_idx` does not address an existing comment of the stored
post, `comment_flow` answers "Comment not found" and performs no write (post
list and user state unchanged).  The SQL variant performs no parent
validation at all and inserts the comment with the dangling parent id. -/
theorem C5_amended (posts : List JPost) (u : JUser) (uid : String)
    (msg : SqlBot.MsgContent) (mirrorOk : Bool) (pid comment_idx : Nat) (post : JPost)
    (hn : u.nested_idx = none) (hr : u.reply_idx = none)
    (hc : u.comment_idx = some comment_idx)
    (hpid : u.comment_post_id = some pid)
    (hfind : JsonBot.get_post posts (some pid) = some post)
    (hlen : post.comments.length ≤ comment_idx) :
    JsonBot.comment_flow posts u uid msg mirrorOk
      = (posts, u, ["❌ Comment not found."]) := by
  unfold JsonBot.comment_flow
  rw [hpid]
  simp only [hfind, hn, hr, hc]
  rw [clist_get?_eq_none post.comments comment_idx hlen]

/-- Witness for C5_amended: a user whose stored parent index is 5 while post
1 has a single comment. -/
theorem C5_amended_witness :
    JsonBot.comment_flow
      [⟨1, "p", "a", "Anon", "Other", some 5, (CList.cons (CNode.mk "a" "top" [] [] .nil) .nil)⟩]
      { JsonBot.freshJUser "N" with
          waiting_for_comment := true
          comment_post_id := some 1
          comment_idx := some 5 }
      "u" (.text "hi") true
      = ([⟨1, "p", "a", "Anon", "Other", some 5, (CList.cons (CNode.mk "a" "top" [] [] .nil) .nil)⟩],
         { JsonBot.freshJUser "N" with
             waiting_for_comment := true
             comment_post_id := some 1
             comment_idx := some 5 },
         ["❌ Comment not found."]) :=
  C5_amended _ _ "u" (.text "hi") true 1 5
    ⟨1, "p", "a", "Anon", "Other", some 5, (CList.cons (CNode.mk "a" "top" [] [] .nil) .nil)⟩
    rfl rfl rfl rfl rfl (by simp [CList.length])

/-- C6, counterexample: the SQL variant's reaction branch performs no
existence check: pressing 👍 on the nonexistent comment 99 inserts a
reaction row for it instead of failing with `CommentNotFound` and writing
nothing. -/
theorem C6_counterexample :
    (SqlBot.toggle_reaction ceDB 99 "u" "like").reactions = [⟨99, "u", "like"⟩]
    ∧ ceDB.comments.filter (fun c => c.comment_id == 99) = [] := by
  decide

/-- C6, amended: the JSON variant's reaction handler fails without any write
when the comment identifier does not resolve — "Post not found" when the
post is missing, "Comment not found" when the comment index is out of range;
the SQL variant inserts a reaction row referencing the nonexistent comment
id. -/
theorem C6_amended (posts : List JPost) (pidA pidB comment_idx : Nat)
    (uid : String) (t : RType) (post : JPost)
    (hA : JsonBot.get_post posts (some pidA) = none)
    (hB : JsonBot.get_post posts (some pidB) = some post)
    (hlen : post.comments.length ≤ comment_idx) :
    JsonBot.likecomment_button posts pidA comment_idx uid t = (posts, .post_missing)
    ∧ JsonBot.likecomment_button posts pidB comment_idx uid t = (posts, .comment_missing) := by
  constructor
  · unfold JsonBot.likecomment_button
    rw [hA]
  · unfold JsonBot.likecomment_button
    rw [hB]
    simp only []
    rw [clist_get?_eq_none post.comments comment_idx hlen]

/-- Witness for C6_amended: one post (id 1) with no comments; post 2 is
missing, and comment index 0 of post 1 is out of range. -/
theorem C6_amended_witness :
    JsonBot.likecomment_button [⟨1, "p", "a", "Anon", "Other", some 5, .nil⟩] 2 0 "u" .like
      = ([⟨1, "p", "a", "Anon", "Other", some 5, .nil⟩], .post_missing)
    ∧ JsonBot.likecomment_button [⟨1, "p", "a", "Anon", "Other", some 5, .nil⟩] 1 0 "u" .like
      = ([⟨1, "p", "a", "Anon", "Other", some 5, .nil⟩], .comment_missing) :=
  C6_amended [⟨1, "p", "a", "Anon", "Other", some 5, .nil⟩] 2 1 0 "u" .like
    ⟨1, "p", "a", "Anon", "Other", some 5, .nil⟩ rfl rfl (by simp [CList.length])

lemma comment_flow_mirror_indep (posts : List JPost) (u : JUser) (uid : String)
    (msg : SqlBot.MsgContent) :
    (JsonBot.comment_flow posts u uid msg false).1
      = (JsonBot.comment_flow posts u uid msg true).1
    ∧ (JsonBot.comment_flow posts u uid msg false).2.1
      = (JsonBot.comment_flow posts u uid msg true).2.1 := by
  obtain ⟨an, sx, fo, wp, sc, wc, cpid, cidx, ridx, nidx, awn⟩ := u
  unfold JsonBot.comment_flow
  try dsimp only
  rcases cpid with _ | pid
  · exact ⟨rfl, rfl⟩
  · try dsimp only
    rcases JsonBot.get_post posts (some pid) with _ | post
    · exact ⟨rfl, rfl⟩
    · try dsimp only
      rcases nidx with _ | nested_idx
      · try dsimp only
        rcases ridx with _ | reply_idx
        · try dsimp only
          rcases cidx with _ | comment_idx
          · try dsimp only
            rcases msg with s | ⟨f, c⟩ | ⟨f, c⟩ | _ <;> exact ⟨rfl, rfl⟩
          · try dsimp only
            rcases post.comments.get? comment_idx with _ | comment
            · exact ⟨rfl, rfl⟩
            · exact ⟨rfl, rfl⟩
        · try dsimp only
          rcases cidx with _ | comment_idx
          · exact ⟨rfl, rfl⟩
          · try dsimp only
            rcases post.comments.get? comment_idx with _ | comment
            · exact ⟨rfl, rfl⟩
            · try dsimp only
              rcases comment.replies.get? reply_idx with _ | reply
              · exact ⟨rfl, rfl⟩
              · exact ⟨rfl, rfl⟩
      · try dsimp only
        rcases cidx with _ | comment_idx
        · exact ⟨rfl, rfl⟩
        · try dsimp only
          rcases ridx with _ | reply_idx
          · exact ⟨rfl, rfl⟩
          · try dsimp only
            rcases post.comments.get? comment_idx with _ | comment
            · exact ⟨rfl, rfl⟩
            · try dsimp only
              rcases comment.replies.get? reply_idx with _ | reply
              · exact ⟨rfl, rfl⟩
              · try dsimp only
                rcases reply.replies.get? nested_idx with _ | nested
                · exact ⟨rfl, rfl⟩
                · exact ⟨rfl, rfl⟩

/-- C7: a failing external mirror update (editing the channel message's
comment-count button) never rolls back the comment write or leaves the user
stuck.  SQL variant: with the mirror edit failing, the resulting database is
identical to the one with a successful edit — the comment row is appended
and the pending comment state is cleared either way.  JSON variant: the
resulting posts and user state of `comment_flow` are independent of the
mirror outcome. -/
theorem C7_mirror_failure_nonfatal (db : SqlDB) (uid : String) (u : UserRow)
    (s : String) (sendOk : Bool) (cmid : Nat)
    (posts : List JPost) (ju : JUser) (jid : String) (m : SqlBot.MsgContent)
    (hu : SqlBot.find_user db uid = some u)
    (hp : u.waiting_for_post = false)
    (hc : u.waiting_for_comment = true) :
    (SqlBot.handle_message db uid (.text s) sendOk false cmid).1
      = (SqlBot.handle_message db uid (.text s) sendOk true cmid).1
    ∧ (SqlBot.handle_message db uid (.text s) sendOk false cmid).1.comments
      = db.comments ++
        [⟨db.next_comment_id, u.comment_post_id,
          (match u.comment_idx with | some n => if n = 0 then 0 else n | none => 0),
          uid, s, "text", none⟩]
    ∧ SqlBot.find_user (SqlBot.handle_message db uid (.text s) sendOk false cmid).1 uid
      = some { u with waiting_for_comment := false, comment_post_id := none,
                      comment_idx := none, reply_idx := none, nested_idx := none }
    ∧ (JsonBot.comment_flow posts ju jid m false).1
      = (JsonBot.comment_flow posts ju jid m true).1
    ∧ (JsonBot.comment_flow posts ju jid m false).2.1
      = (JsonBot.comment_flow posts ju jid m true).2.1 := by
  have hmsg : ∀ mOk, SqlBot.handle_message db uid (.text s) sendOk mOk cmid
      = SqlBot.comment_branch db uid u (.text s) mOk := by
    intro mOk
    unfold SqlBot.handle_message
    rw [hu]
    simp [hp, hc]
  refine ⟨?_, ?_, ?_, (comment_flow_mirror_indep posts ju jid m).1,
    (comment_flow_mirror_indep posts ju jid m).2⟩
  · rw [hmsg false, hmsg true]
    rfl
  · rw [hmsg false]
    rfl
  · rw [hmsg false]
    unfold SqlBot.comment_branch
    apply find_user_update_user
    · intro v; rfl
    · exact hu

/-- Witness for C7_mirror_failure_nonfatal: the user presses "Write Comment"
on post 1 of `ceDB`, sends "hello", and the channel button edit fails. -/
theorem C7_witness :
    (SqlBot.handle_message (SqlBot.writecomment_button ceDB "u" 1) "u"
        (.text "hello") true false 0).1
      = (SqlBot.handle_message (SqlBot.writecomment_button ceDB "u" 1) "u"
        (.text "hello") true true 0).1
    ∧ (SqlBot.handle_message (SqlBot.writecomment_button ceDB "u" 1) "u"
        (.text "hello") true false 0).1.comments
      = (SqlBot.writecomment_button ceDB "u" 1).comments ++
        [⟨3, some 1, 0, "u", "hello", "text", none⟩]
    ∧ SqlBot.find_user (SqlBot.handle_message (SqlBot.writecomment_button ceDB "u" 1) "u"
        (.text "hello") true false 0).1 "u"
      = some ⟨"u", "Hopeful1", "❓", false, false, false, none, none, none, none, none⟩
    ∧ (JsonBot.comment_flow [] JsonBot.emptyJUser "u" (.text "x") false).1
      = (JsonBot.comment_flow [] JsonBot.emptyJUser "u" (.text "x") true).1
    ∧ (JsonBot.comment_flow [] JsonBot.emptyJUser "u" (.text "x") false).2.1
      = (JsonBot.comment_flow [] JsonBot.emptyJUser "u" (.text "x") true).2.1 :=
  C7_mirror_failure_nonfatal (SqlBot.writecomment_button ceDB "u" 1) "u"
    ⟨"u", "Hopeful1", "❓", false, false, true, none, some 1, none, none, none⟩
    "hello" true 0 [] JsonBot.emptyJUser "u" (.text "x")
    (by decide) (by decide) (by decide)

/-- One post with a chain comment → reply → nested reply (all by "a") and a
depth-4 reply by "u" — exactly the shape `replytonested_` plus
`handle_message` produces. -/
def cePosts : List JPost :=
  [⟨1, "p", "a", "Anon", "Other", some 5,
    .cons (CNode.mk "a" "top" [] []
      (.cons (CNode.mk "a" "r2" [] []
        (.cons (CNode.mk "a" "r3" [] []
          (.cons (CNode.mk "u" "r4" [] [] .nil) .nil)) .nil)) .nil)) .nil⟩]

/-- C8, counterexample: user "u" authored one comment record (the depth-4
reply) and no posts, so the claim predicts a rating of 1; the JSON variant's
`calculate_user_rating` stops at depth 3 and returns 0. -/
theorem C8_counterexample :
    JsonBot.calculate_user_rating cePosts "u" = 0
    ∧ JsonBot.authored_any_depth cePosts "u" = 1 := by
  exact ⟨rfl, rfl⟩

lemma foldl_add_sum {α : Type} (step : Nat → α → Nat) (g : α → Nat)
    (h : ∀ acc x, step acc x = acc + g x) :
    ∀ (l : List α) (a : Nat), l.foldl step a = a + (l.map g).sum := by
  intro l
  induction l with
  | nil => intro a; simp
  | cons x t ih =>
    intro a
    rw [List.foldl_cons, h, ih, List.map_cons, List.sum_cons]
    omega

lemma clist_foldl_add_sum (step : Nat → CNode → Nat) (g : CNode → Nat)
    (h : ∀ acc x, step acc x = acc + g x) :
    ∀ (l : CList) (a : Nat), CList.foldl step a l = a + (l.toList.map g).sum := by
  intro l
  induction l using CList.rec (motive_1 := fun _ => True) with
  | mk a s li d rs ih => exact True.intro
  | nil => intro a; simp [CList.foldl, CList.toList]
  | cons x t ih1 ih2 =>
    intro a
    simp only [CList.foldl, CList.toList, List.map_cons, List.sum_cons]
    rw [h, ih2]
    omega

lemma length_filter_eq_sum_map {α : Type} (p : α → Bool) (l : List α) :
    (l.filter p).length = (l.map (fun x => if p x then 1 else 0)).sum := by
  induction l with
  | nil => rfl
  | cons x t ih =>
    cases h : p x <;> simp [List.filter_cons, h, ih] <;> omega

/-- C8, amended: the JSON variant's rating equals the number of posts
authored plus the number of comment records authored at nesting depths 1-3
only — replies nested deeper than 3 levels are not counted.  (The SQL
variant's rating counts its flat comment table, hence every depth.) -/
theorem C8_amended (posts : List JPost) (user_id : String) :
    JsonBot.calculate_user_rating posts user_id
      = JsonBot.authored_posts posts user_id
        + (posts.map (fun p => JsonBot.authored_upto_depth3 user_id p.comments)).sum := by
  unfold JsonBot.calculate_user_rating
  have h3 : ∀ (rs : CList) (a : Nat),
      CList.foldl (fun acc nr => if nr.author = user_id then acc + 1 else acc) a rs
        = a + (rs.toList.map (count1 user_id)).sum := by
    intro rs a
    apply clist_foldl_add_sum
    intro acc x
    by_cases h : x.author = user_id <;> simp [count1, h]
  have h2 : ∀ (rs : CList) (a : Nat),
      CList.foldl (fun acc r =>
        let acc := if r.author = user_id then acc + 1 else acc
        CList.foldl (fun acc nr => if nr.author = user_id then acc + 1 else acc) acc
          r.replies) a rs
        = a + (rs.toList.map (fun r =>
            count1 user_id r + (r.replies.toList.map (count1 user_id)).sum)).sum := by
    intro rs a
    apply clist_foldl_add_sum
    intro acc x
    rw [h3]
    by_cases h : x.author = user_id <;> simp [count1, h] <;> omega
  have h1 : ∀ (cs : CList) (a : Nat),
      CList.foldl (fun acc c =>
        let acc := if c.author = user_id then acc + 1 else acc
        CList.foldl (fun acc r =>
          let acc := if r.author = user_id then acc + 1 else acc
          CList.foldl (fun acc nr => if nr.author = user_id then acc + 1 else acc) acc
            r.replies) acc c.replies) a cs
        = a + (cs.toList.map (fun c =>
            count1 user_id c +
            (c.replies.toList.map (fun r =>
              count1 user_id r + (r.replies.toList.map (count1 user_id)).sum)).sum)).sum := by
    intro cs a
    apply clist_foldl_add_sum
    intro acc x
    rw [h2]
    by_cases h : x.author = user_id <;> simp [count1, h] <;> omega
  have h0 : ∀ (ps : List JPost) (a : Nat),
      ps.foldl (fun acc p => if p.author_id = user_id then acc + 1 else acc) a
        = a + (ps.map (fun p => if p.author_id = user_id then 1 else 0)).sum := by
    intro ps a
    apply foldl_add_sum
    intro acc x
    by_cases h : x.author_id = user_id <;> simp [h]
  have hposts : ∀ (ps : List JPost) (a : Nat),
      ps.foldl (fun acc p =>
        CList.foldl (fun acc c =>
          let acc := if c.author = user_id then acc + 1 else acc
          CList.foldl (fun acc r =>
            let acc := if r.author = user_id then acc + 1 else acc
            CList.foldl (fun acc nr => if nr.author = user_id then acc + 1 else acc) acc
              r.replies) acc c.replies) acc p.comments) a
        = a + (ps.map (fun p => JsonBot.authored_upto_depth3 user_id p.comments)).sum := by
    intro ps a
    apply foldl_add_sum
    intro acc x
    rw [h1]
    rfl
  rw [hposts, h0]
  unfold JsonBot.authored_posts
  rw [length_filter_eq_sum_map]
  have : ∀ p : JPost,
      (if (p.author_id = user_id : Bool) then (1 : Nat) else 0)
        = (if p.author_id = user_id then 1 else 0) := by
    intro p
    by_cases h : p.author_id = user_id <;> simp [h]
  simp only [this]
  omega

lemma find?_map_save (l : List (String × JUser)) (uid : String) (u : JUser)
    (h : l.any (fun p => p.1 = uid)) :
    (l.map (fun p => if p.1 = uid then (uid, u) else p)).find? (fun p => p.1 = uid)
      = some (uid, u) := by
  induction l with
  | nil => simp at h
  | cons x t ih =>
    by_cases hx : x.1 = uid
    · rw [List.map_cons, if_pos hx, List.find?_cons_of_pos _ (by simp)]
    · rw [List.map_cons, if_neg hx, List.find?_cons_of_neg _ (by simp [hx])]
      apply ih
      simpa [hx] using h

lemma find?_map_save_other (l : List (String × JUser)) (uid y : String) (u : JUser)
    (hy : y ≠ uid) :
    (l.map (fun p => if p.1 = uid then (uid, u) else p)).find? (fun p => p.1 = y)
      = l.find? (fun p => p.1 = y) := by
  induction l with
  | nil => rfl
  | cons x t ih =>
    by_cases hx : x.1 = uid
    · have huy : ¬(uid = y) := fun hc => hy hc.symm
      have hxy : ¬(x.1 = y) := fun hc => hy (hc.symm.trans hx)
      rw [List.map_cons, if_pos hx,
        List.find?_cons_of_neg _ (by simp [huy]),
        List.find?_cons_of_neg _ (by simp [hxy])]
      exact ih
    · rw [List.map_cons, if_neg hx]
      by_cases hxy : x.1 = y
      · rw [List.find?_cons_of_pos _ (by simp [hxy]),
          List.find?_cons_of_pos _ (by simp [hxy])]
      · rw [List.find?_cons_of_neg _ (by simp [hxy]),
          List.find?_cons_of_neg _ (by simp [hxy])]
        exact ih

lemma get_user_save_self (users : List (String × JUser)) (uid : String) (u : JUser) :
    JsonBot.get_user (JsonBot.save_user users uid u) uid = some u := by
  unfold JsonBot.save_user JsonBot.get_user
  by_cases h : users.any (fun p => p.1 = uid)
  · rw [if_pos h, find?_map_save users uid u h]
    rfl
  · rw [if_neg h]
    have hnone : users.find? (fun p => p.1 = uid) = none := by
      rw [List.find?_eq_none]
      intro p hp hc
      exact h (List.any_eq_true.mpr ⟨p, hp, hc⟩)
    rw [List.find?_append, hnone]
    simp

lemma get_user_save_other (users : List (String × JUser)) (uid y : String)
    (u : JUser) (hy : y ≠ uid) :
    JsonBot.get_user (JsonBot.save_user users uid u) y = JsonBot.get_user users y := by
  unfold JsonBot.save_user JsonBot.get_user
  by_cases h : users.any (fun p => p.1 = uid)
  · rw [if_pos h, find?_map_save_other users uid y u hy]
  · rw [if_neg h, List.find?_append]
    have huy : ¬(uid = y) := fun hc => hy hc.symm
    have : List.find? (fun p => p.1 = y) [(uid, u)] = none := by
      simp [huy]
    rw [this]
    cases users.find? (fun p => p.1 = y) <;> rfl

/-- C9: follow relations hold at most one entry per (follower, followed)
pair, following is a no-op when the pair already exists, and A following B
does not affect whether B follows A.  JSON variant: following again leaves
the whole relation unchanged, `followers` lists stay duplicate-free, and
following touches only the target's record; SQL variant: a duplicate INSERT
is swallowed by the PRIMARY KEY (database unchanged), the pair count stays
at most 1, and unfollow removes every entry of the pair. -/
theorem C9_follow_unique (users : List (String × JUser))
    (A B C X Y A2 B2 : String) (db : SqlDB)
    (hfb : JsonBot.follows users A B)
    (hCB : C ≠ B)
    (hnd : ((JsonBot.get_user users B).getD JsonBot.emptyJUser).followers.Nodup)
    (hmem : (A, B) ∈ db.followers)
    (hcnt2 : db.followers.count (A2, B2) ≤ 1) :
    (JsonBot.follows (JsonBot.follow_button users A B true) X Y
      ↔ JsonBot.follows users X Y)
    ∧ ((JsonBot.get_user (JsonBot.follow_button users C B true) B).getD
        JsonBot.emptyJUser).followers.Nodup
    ∧ (JsonBot.follows (JsonBot.follow_button users C B true) B C
      ↔ JsonBot.follows users B C)
    ∧ SqlBot.follow_button db A B = db
    ∧ (SqlBot.follow_button db A2 B2).followers.count (A2, B2) ≤ 1
    ∧ (SqlBot.unfollow_button db A2 B2).followers.count (A2, B2) = 0 := by
  have hBrec : ∃ tu, JsonBot.get_user users B = some tu ∧ A ∈ tu.followers := by
    unfold JsonBot.follows at hfb
    cases hB : JsonBot.get_user users B with
    | none => rw [hB] at hfb; simp [JsonBot.emptyJUser] at hfb
    | some tu => exact ⟨tu, rfl, by rw [hB] at hfb; exact hfb⟩
  obtain ⟨tu, hB, hA⟩ := hBrec
  refine ⟨?_, ?_, ?_, ?_, ?_, ?_⟩
  · have hsaved : JsonBot.follow_button users A B true = JsonBot.save_user users B tu := by
      unfold JsonBot.follow_button
      rw [hB]
      unfold JsonBot.follow_op
      simp [hA]
    rw [hsaved]
    unfold JsonBot.follows
    by_cases hY : Y = B
    · subst hY
      rw [get_user_save_self, hB]
    · rw [get_user_save_other users B Y tu hY]
  · unfold JsonBot.follow_button
    rw [hB]
    rw [get_user_save_self]
    simp only [Option.getD_some]
    rw [hB] at hnd
    simp only [Option.getD_some] at hnd
    unfold JsonBot.follow_op
    by_cases hCmem : C ∈ tu.followers
    · simpa [hCmem] using hnd
    · simp only [if_pos rfl, if_neg hCmem]
      simp [List.nodup_append, hnd, hCmem]
  · unfold JsonBot.follows
    have h2 : JsonBot.follow_button users C B true
        = JsonBot.save_user users B
            { ((JsonBot.get_user users B).getD JsonBot.emptyJUser) with
                followers := JsonBot.follow_op C true
                  ((JsonBot.get_user users B).getD JsonBot.emptyJUser).followers } := rfl
    rw [h2, get_user_save_other _ B C _ hCB]
  · unfold SqlBot.follow_button
    rw [if_pos (List.any_eq_true.mpr ⟨(A, B), hmem, by simp⟩)]
  · unfold SqlBot.follow_button
    by_cases hm : db.followers.any (fun p => p.1 == A2 && p.2 == B2)
    · rw [if_pos hm]
      exact hcnt2
    · rw [if_neg hm]
      have hnotmem : (A2, B2) ∉ db.followers := by
        intro hc
        exact hm (List.any_eq_true.mpr ⟨(A2, B2), hc, by simp⟩)
      simp [List.count_append, List.count_eq_zero.mpr hnotmem]
  · unfold SqlBot.unfollow_button
    simp only []
    rw [List.count_eq_zero]
    intro hc
    have := List.of_mem_filter hc
    simp at this

/-- Witness for C9_follow_unique: "A" already follows "B" (in both variants);
"C" follows nobody and the pair ("C", "D") is absent from the SQL table. -/
theorem C9_witness :
    (JsonBot.follows
        (JsonBot.follow_button
          [("B", ⟨"N", "❓", ["A"], false, none, false, none, none, none, none, false⟩)]
          "A" "B" true) "A" "B"
      ↔ JsonBot.follows
          [("B", ⟨"N", "❓", ["A"], false, none, false, none, none, none, none, false⟩)]
          "A" "B")
    ∧ ((JsonBot.get_user
          (JsonBot.follow_button
            [("B", ⟨"N", "❓", ["A"], false, none, false, none, none, none, none, false⟩)]
            "C" "B" true) "B").getD JsonBot.emptyJUser).followers.Nodup
    ∧ (JsonBot.follows
        (JsonBot.follow_button
          [("B", ⟨"N", "❓", ["A"], false, none, false, none, none, none, none, false⟩)]
          "C" "B" true) "B" "C"
      ↔ JsonBot.follows
          [("B", ⟨"N", "❓", ["A"], false, none, false, none, none, none, none, false⟩)]
          "B" "C")
    ∧ SqlBot.follow_button ⟨[], [], [], [], [("A", "B")], 1, 1⟩ "A" "B"
      = ⟨[], [], [], [], [("A", "B")], 1, 1⟩
    ∧ (SqlBot.follow_button ⟨[], [], [], [], [("A", "B")], 1, 1⟩ "C" "D").followers.count
        ("C", "D") ≤ 1
    ∧ (SqlBot.unfollow_button ⟨[], [], [], [], [("A", "B")], 1, 1⟩ "C" "D").followers.count
        ("C", "D") = 0 :=
  C9_follow_unique
    [("B", ⟨"N", "❓", ["A"], false, none, false, none, none, none, none, false⟩)]
    "A" "B" "C" "A" "B" "C" "D" ⟨[], [], [], [], [("A", "B")], 1, 1⟩
    (by decide) (by decide) (by decide) (by decide) (by decide)

/-- A user who is awaiting a new anonymous name (current name "Old") and has
no other pending action. -/
def ceNameUser : JUser :=
  { JsonBot.freshJUser "Old" with awaiting_name := true }

/-- C10, counterexample: in the JSON variant the four reply-keyboard texts
are checked before the awaiting-name branch, so a user awaiting a name who
sends "❓ Help" — stripped non-empty and well under 30 characters, hence
accepted per the claim — keeps the old name and stays in the awaiting-name
state. -/
theorem C10_counterexample :
    (strip "❓ Help" ≠ "" ∧ (strip "❓ Help").length ≤ 30)
    ∧ (JsonBot.handle_message [] ceNameUser "u" (.text "❓ Help") true true 0).2.1
      = ceNameUser := by
  exact ⟨by decide, rfl⟩

/-- C10, amended: while a user's only pending action is awaiting-name, a text
message that is not one of the four reserved reply-keyboard labels
("🙏 Ask Question", "👤 View Profile", "❓ Help", "ℹ️ About Us") is accepted
as the new name iff its stripped form is non-empty and at most 30 characters
— replacing the stored name and clearing the state — and otherwise rejected
with everything unchanged; a message equal to one of those labels is
handled as a menu command instead (JSON variant; the SQL variant checks the
name branch before the keyboard texts and accepts even those labels). -/
theorem C10_amended (posts : List JPost) (u : JUser) (uid s : String)
    (sendOk mirrorOk : Bool) (cmid : Nat)
    (hwc : u.waiting_for_comment = false)
    (han : u.awaiting_name = true)
    (hmenu : ¬(s = "🙏 Ask Question" ∨ s = "👤 View Profile" ∨
               s = "❓ Help" ∨ s = "ℹ️ About Us")) :
    ((strip s ≠ "" ∧ (strip s).length ≤ 30) →
      JsonBot.handle_message posts u uid (.text s) sendOk mirrorOk cmid
        = (posts, { u with anonymous_name := strip s, awaiting_name := false },
           ["✅ Name updated!"]))
    ∧ (¬(strip s ≠ "" ∧ (strip s).length ≤ 30) →
      JsonBot.handle_message posts u uid (.text s) sendOk mirrorOk cmid
        = (posts, u,
           ["❌ Name cannot be empty or longer than 30 characters. Please try again."])) := by
  unfold JsonBot.handle_message
  simp only [SqlBot.textOf, hwc, Bool.false_eq_true, if_false, if_neg hmenu, han,
    if_pos rfl, if_true]
  constructor
  · intro hacc
    rw [if_pos hacc]
  · intro hrej
    rw [if_neg hrej]

/-- Witness for C10_amended: the awaiting-name user sends "NewName", which is
accepted. -/
theorem C10_witness :
    JsonBot.handle_message [] ceNameUser "u" (.text "NewName") true true 0
      = ([], { ceNameUser with anonymous_name := strip "NewName", awaiting_name := false },
         ["✅ Name updated!"]) :=
  (C10_amended [] ceNameUser "u" "NewName" true true 0 rfl rfl (by decide)).1 (by decide)

end Theorems
